import Mathlib

/-!
Verification development for the PR-Summarizer frontend API client
(`src/unnamed/part_001`, class `APIClient`) and the input form
(`src/frontend/src/App.tsx`, component `InputForm`).

The TypeScript source is shallowly embedded: numbers become `Nat`,
optional values become `Option`, the TS `Partial<...>` type becomes a
structure of `Option` fields, and the asynchronous attempt performed by
`fetch` raced against the timeout timer is abstracted as an environment
function `env : Nat → AttemptResult` giving the resolution of the attempt
with retry counter `n`.  The single-slot `AbortController` state of the
client is modelled separately as an explicit state machine.
-/

/-! ## Error taxonomy (part_001, lines 82-120)

The four error classes `APIClientError`, `ValidationAPIError`,
`NetworkError`, `TimeoutError` become one inductive.  `base` is the plain
`APIClientError` class (carrying `message`, `statusCode`, `errorCode`,
`correlationId`); `validation` is `ValidationAPIError` (statusCode 400,
errorCode VALIDATION_ERROR); `network` and `timeout` both carry
statusCode 0.  The `details` record is untyped in the source
(`Record<string, any>`) and not consulted by any control flow, so it is
omitted. -/

/-- One entry of the `errors` array of a `ValidationError` body
(part_001, lines 42-49); the untyped `value?: any` field is omitted. -/
structure FieldError where
  field : String
  message : String
  code : String
deriving DecidableEq

/-- The decoded JSON error body `APIError` (part_001, lines 32-40), with
the optional `errors` array of `ValidationError` merged in as an `Option`
(present exactly when the JSON object has an `errors` key).  The unused
optional `path`, `method` and untyped `details` fields are omitted. -/
structure APIErrorBody where
  error : String
  message : String
  timestamp : String
  correlation_id : Option String := none
  errors : Option (List FieldError) := none
deriving DecidableEq

/-- The error-class hierarchy of part_001, lines 84-120, flattened to an
inductive. -/
inductive APIClientError where
  | base (message : String) (statusCode : Nat) (errorCode : Option String)
      (correlationId : Option String)
  | validation (message : String) (validationErrors : List FieldError)
      (correlationId : Option String)
  | network (message : String)
  | timeout (message : String)
deriving DecidableEq

/-- The `statusCode` each construction in the source passes to the
`APIClientError` super-constructor: `ValidationAPIError` passes 400,
`NetworkError` and `TimeoutError` pass 0. -/
def APIClientError.statusCode : APIClientError → Nat
  | .base _ s _ _ => s
  | .validation _ _ _ => 400
  | .network _ => 0
  | .timeout _ => 0

/-! ## Configuration (part_001, lines 124-140, 172-175) -/

/-- `Required<APIClientConfig>` (part_001, lines 124-131), the shape the
client stores in `this.config`. -/
structure APIClientConfig where
  baseURL : String
  timeout : Nat
  retries : Nat
  retryDelay : Nat
  retryBackoff : Bool
  enableLogging : Bool
deriving DecidableEq

/-- `DEFAULT_CONFIG` (part_001, lines 133-140); the two
environment-dependent defaults are fixed to their documented fallbacks
(base URL `http://localhost:8000`, logging off). -/
def DEFAULT_CONFIG : APIClientConfig :=
  { baseURL := "http://localhost:8000"
    timeout := 30000
    retries := 3
    retryDelay := 1000
    retryBackoff := true
    enableLogging := false }

/-- The TS `Partial<APIClientConfig>` argument of `updateConfig`: each
field is present (`some`) or absent (`none`). -/
structure ConfigOverrides where
  baseURL : Option String := none
  timeout : Option Nat := none
  retries : Option Nat := none
  retryDelay : Option Nat := none
  retryBackoff : Option Bool := none
  enableLogging : Option Bool := none
deriving DecidableEq

/-- `updateConfig` (part_001, lines 172-175):
`this.config = { ...this.config, ...config }` — every field present in
the override wins, every absent field keeps its stored value. -/
def updateConfig (c : APIClientConfig) (p : ConfigOverrides) : APIClientConfig :=
  { baseURL := p.baseURL.getD c.baseURL
    timeout := p.timeout.getD c.timeout
    retries := p.retries.getD c.retries
    retryDelay := p.retryDelay.getD c.retryDelay
    retryBackoff := p.retryBackoff.getD c.retryBackoff
    enableLogging := p.enableLogging.getD c.enableLogging }

/-! ## Classification helpers (part_001, lines 147-150, 288-321) -/

/-- `isRetryableError` (part_001, lines 147-150):
`if (!error.statusCode) return true;` then
`return error.statusCode >= 500 || error.statusCode === 429;`. -/
def isRetryableError (e : APIClientError) : Bool :=
  if e.statusCode = 0 then true
  else decide (500 ≤ e.statusCode) || decide (e.statusCode = 429)

/-- `parseErrorResponse` (part_001, lines 288-300).  `body = some data`
models `response.json()` succeeding with `data`; `none` models the JSON
decode throwing, in which case the minimal fallback body is synthesized
from the status line (`now` is the `new Date().toISOString()` reading). -/
def parseErrorResponse (status : Nat) (statusText now : String)
    (body : Option APIErrorBody) : APIErrorBody :=
  match body with
  | some data => data
  | none =>
      { error := "HTTP Error"
        message := "HTTP " ++ toString status ++ " - " ++ statusText
        timestamp := now }

/-- `createAPIError` (part_001, lines 305-321):
`ValidationAPIError` iff `statusCode === 400 && 'errors' in errorData`,
otherwise a plain `APIClientError` carrying the HTTP status and the
body's `error` code. -/
def createAPIError (statusCode : Nat) (errorData : APIErrorBody) : APIClientError :=
  if h : statusCode = 400 ∧ errorData.errors.isSome then
    .validation errorData.message (errorData.errors.get h.2) errorData.correlation_id
  else
    .base errorData.message statusCode (some errorData.error) errorData.correlation_id

/-! ## The core request operation (part_001, lines 191-283)

One network attempt (the `try` block: `fetch` raced against the timeout
timer, then status checking and body decoding) resolves in one of the
ways enumerated by `AttemptResult`.  The environment `env n` fixes the
resolution of the attempt whose `retryCount` is `n`; within one logical
call attempts are strictly sequential, so this captures every schedule.
The result of `request` is the triple (outcome, number of attempts
performed, list of backoff delays slept between consecutive attempts). -/

/-- How one raced attempt resolves, mirroring the discrimination the
`catch` block of `request` performs (part_001, lines 239-259):
* `success`: 2xx response whose JSON body decodes;
* `abortError`: `fetch` rejected with an `AbortError` (signal aborted);
* `timeoutRaced`: the timeout promise won the race (`TimeoutError`);
* `fetchTypeError`: the transport failed — `fetch` rejected with a
  `TypeError` whose message mentions `fetch`, as browsers produce;
* `badSuccessJson`: 2xx response but `response.json()` threw, a raw
  `SyntaxError` that matches none of the `catch` tests;
* `httpError`: a non-2xx response with the given status, status text,
  clock reading, and (`some`, decodable) or (`none`, undecodable) JSON
  error body. -/
inductive AttemptResult where
  | success
  | abortError
  | timeoutRaced
  | fetchTypeError
  | badSuccessJson
  | httpError (status : Nat) (statusText : String) (now : String)
      (body : Option APIErrorBody)
deriving DecidableEq

/-- What one logical `request` call produces: the decoded payload
(`ok`), a thrown `APIClientError` (`err`), or a rethrown raw non-API
error such as the `SyntaxError` of `badSuccessJson` (`raw`). -/
inductive ReqResult where
  | ok
  | err (e : APIClientError)
  | raw
deriving DecidableEq

/-- The backoff delay computed before a retry (part_001, lines 266-268):
`retryBackoff ? retryDelay * Math.pow(2, retryCount) : retryDelay`. -/
def computeDelay (cfg : APIClientConfig) (retryCount : Nat) : Nat :=
  if cfg.retryBackoff then cfg.retryDelay * 2 ^ retryCount else cfg.retryDelay

/-- `APIClient.request` (part_001, lines 191-283) under environment
`env`.  Returns (outcome, attempts performed, delays slept).  The
`catch` block in source order: `AbortError` is rethrown as the CANCELLED
`APIClientError` immediately; a fetch `TypeError` is rethrown as a
`NetworkError` immediately; then, only for errors that are
`instanceof APIClientError` (the raced `TimeoutError` and the classified
HTTP errors), the retry test
`retryCount < this.config.retries && isRetryableError(error)` decides
between sleeping `computeDelay` and recursing with `retryCount + 1`, or
rethrowing terminally. -/
def request (cfg : APIClientConfig) (env : Nat → AttemptResult)
    (retryCount : Nat) : ReqResult × Nat × List Nat :=
  match env retryCount with
  | .success => (.ok, 1, [])
  | .abortError =>
      (.err (.base "Request was cancelled" 0 (some "CANCELLED") none), 1, [])
  | .fetchTypeError =>
      (.err (.network "Network error - please check your connection"), 1, [])
  | .badSuccessJson => (.raw, 1, [])
  | .timeoutRaced =>
      if h : retryCount < cfg.retries ∧
          isRetryableError (.timeout "Request timed out") = true then
        ((request cfg env (retryCount + 1)).1,
          (request cfg env (retryCount + 1)).2.1 + 1,
          computeDelay cfg retryCount :: (request cfg env (retryCount + 1)).2.2)
      else (.err (.timeout "Request timed out"), 1, [])
  | .httpError status statusText now body =>
      if h : retryCount < cfg.retries ∧
          isRetryableError
            (createAPIError status (parseErrorResponse status statusText now body))
            = true then
        ((request cfg env (retryCount + 1)).1,
          (request cfg env (retryCount + 1)).2.1 + 1,
          computeDelay cfg retryCount :: (request cfg env (retryCount + 1)).2.2)
      else (.err (createAPIError status (parseErrorResponse status statusText now body)),
        1, [])
termination_by cfg.retries - retryCount
decreasing_by
  all_goals obtain ⟨h1, -⟩ := h
  all_goals omega

/-! ## Single-slot cancellation state (part_001, lines 162, 180-186, 198-199)

The client owns one `abortController : AbortController | null` slot.
`cancelRequests` aborts the tracked controller (if any) and nulls the
slot; each invocation of `request` installs a fresh controller into the
slot (`this.abortController = new AbortController()`), whose signal is
the one the in-flight `fetch` observes.  Controllers are modelled by
freshness ids; `aborted` records the ids whose `abort()` has fired. -/

/-- The cancellation-relevant state of an `APIClient` instance. -/
structure ClientState where
  abortController : Option Nat
  aborted : List Nat
  nextId : Nat
deriving DecidableEq

/-- The state of a freshly constructed client: `abortController = null`
(part_001, line 162), no abort signal ever fired. -/
def initialClientState : ClientState :=
  { abortController := none, aborted := [], nextId := 0 }

/-- `cancelRequests` (part_001, lines 180-186): if a controller is
tracked, call `abort()` on it and null the slot; otherwise do nothing. -/
def cancelRequests (s : ClientState) : ClientState :=
  match s.abortController with
  | some t => { abortController := none, aborted := t :: s.aborted, nextId := s.nextId }
  | none => s

/-- The slot update at the top of `request` (part_001, lines 198-199):
`this.abortController = new AbortController()`.  Returns the new state
and the id of the fresh controller, whose signal the call's `fetch`
uses. -/
def beginRequest (s : ClientState) : ClientState × Nat :=
  ({ abortController := some s.nextId, aborted := s.aborted, nextId := s.nextId + 1 },
    s.nextId)

/-- Whether the attempt holding controller `t` observes an aborted
signal in state `s` — exactly when `fetch` rejects with `AbortError`,
i.e. the attempt resolves as `AttemptResult.abortError`. -/
def attemptAborted (s : ClientState) (t : Nat) : Bool :=
  decide (t ∈ s.aborted)

/-! ## Facade: `generateSummary` (part_001, lines 328-338) -/

/-- `SummaryRequest` (part_001, lines 11-14). -/
structure SummaryRequest where
  githubPrUrl : String
  jiraTicketId : Option String
deriving DecidableEq

/-- The wire body `cleanRequest` serialized by `generateSummary`
(part_001, lines 329-332); `jira_ticket_id = none` models the field
being `undefined`, which `JSON.stringify` omits from the body. -/
structure WireSummaryRequest where
  github_pr_url : String
  jira_ticket_id : Option String
deriving DecidableEq

/-- A character stripped by the JavaScript `String.prototype.trim`
(restricted to the ASCII white-space characters; the exotic Unicode
space and line-terminator code points play no role here). -/
def isJsWhitespace (c : Char) : Bool :=
  c == ' ' || c == '\t' || c == '\n' || c == '\r' || c == '\x0B' || c == '\x0C'

/-- The JavaScript `value.trim()`: strip white space from both ends. -/
def jsTrim (s : String) : String :=
  ⟨((s.toList.dropWhile isJsWhitespace).reverse.dropWhile isJsWhitespace).reverse⟩

/-- The `cleanRequest` construction (part_001, lines 329-332):
`github_pr_url: request.githubPrUrl.trim()` and
`jira_ticket_id: request.jiraTicketId?.trim() || undefined` — absent
input stays absent, and a trim result of `''` is falsy, so it collapses
to `undefined` as well. -/
def cleanRequest (r : SummaryRequest) : WireSummaryRequest :=
  { github_pr_url := jsTrim r.githubPrUrl
    jira_ticket_id :=
      match r.jiraTicketId with
      | none => none
      | some t => if jsTrim t = "" then none else some (jsTrim t) }

/-- `generateSummary` (part_001, lines 328-338): the endpoint path and
wire body handed to `request` (`POST /api/v1/summary/generate`). -/
def generateSummary (r : SummaryRequest) : String × WireSummaryRequest :=
  ("/api/v1/summary/generate", cleanRequest r)

/-! ## Input form validation (App.tsx part, `InputForm`)

`GITHUB_PR_URL_PATTERN = /^https:\/\/github\.com\/[^\/]+\/[^\/]+\/pull\/\d+$/`
and `JIRA_TICKET_PATTERN = /^[A-Z]{1,10}-\d+$/i`.  Both regexes are
anchored and each quantified class is followed by a character it cannot
match, so greedy matching without backtracking is exact and the patterns
are implemented by direct structural decompositions. -/

/-- A character matched by `[A-Z]` under the `i` flag (ASCII letters). -/
def isAsciiLetter (c : Char) : Bool :=
  (decide ('A' ≤ c) && decide (c ≤ 'Z')) || (decide ('a' ≤ c) && decide (c ≤ 'z'))

/-- `JIRA_TICKET_PATTERN.test s`: one to ten letters, a hyphen, then one
or more ASCII digits, spanning the whole string. -/
def jiraTicketTest (s : String) : Bool :=
  let cs := s.toList
  let letters := cs.takeWhile isAsciiLetter
  decide (1 ≤ letters.length) && decide (letters.length ≤ 10) &&
    match cs.dropWhile isAsciiLetter with
    | '-' :: ds => !ds.isEmpty && ds.all Char.isDigit
    | _ => false

/-- Split a character list at every `/` (the segments of the URL, the
class `[^\/]` being exactly "any character of a segment"). -/
def splitOnSlash : List Char → List (List Char)
  | [] => [[]]
  | c :: rest =>
      match splitOnSlash rest with
      | [] => [[]]
      | seg :: segs => if c == '/' then [] :: seg :: segs else (c :: seg) :: segs

/-- `GITHUB_PR_URL_PATTERN.test s`: splitting on `/` must yield exactly
`https:`, an empty segment, `github.com`, a non-empty owner, a non-empty
repo, the literal `pull`, and a non-empty run of digits. -/
def githubPrUrlTest (s : String) : Bool :=
  match splitOnSlash s.toList with
  | [scheme, sep, host, owner, repo, pull, num] =>
      scheme == "https:".toList && sep == [] && host == "github.com".toList &&
        !owner.isEmpty && !repo.isEmpty && pull == "pull".toList &&
        !num.isEmpty && num.all Char.isDigit
  | _ => false

/-- The two fields of the form (`FormData`, App.tsx part): the optional
Jira ticket input is an `Option` (`initialData.jiraTicketId || ''`
renders `none` as the empty string). -/
structure FormData where
  githubPrUrl : String
  jiraTicketId : Option String
deriving DecidableEq

/-- The `ValidationErrors` object of `InputForm`; a field is `some msg`
exactly when the corresponding key was assigned. -/
structure ValidationErrors where
  githubPrUrl : Option String := none
  jiraTicketId : Option String := none
  general : Option String := none
deriving DecidableEq

/-- The `name` argument of `validateField` (`keyof FormData`). -/
inductive FormField where
  | githubPrUrl
  | jiraTicketId
deriving DecidableEq

/-- `InputForm.validateField` (App.tsx part): required-and-pattern check
for the GitHub URL; pattern check only when non-empty for the Jira
ticket. -/
def validateField : FormField → String → Option String
  | .githubPrUrl, value =>
      if jsTrim value = "" then some "GitHub PR URL is required"
      else if !githubPrUrlTest (jsTrim value) then
        some "Please enter a valid GitHub PR URL (e.g., https://github.com/owner/repo/pull/123)"
      else none
  | .jiraTicketId, value =>
      if jsTrim value ≠ "" && !jiraTicketTest (jsTrim value) then
        some "Please enter a valid Jira ticket ID (e.g., PROJ-123)"
      else none

/-- `InputForm.validateForm` (App.tsx part): field-wise validation, with
`data.jiraTicketId || ''` for the optional field. -/
def validateForm (data : FormData) : ValidationErrors :=
  { githubPrUrl := validateField .githubPrUrl data.githubPrUrl
    jiraTicketId := validateField .jiraTicketId (data.jiraTicketId.getD "") }

/-- Whether `Object.keys(validationErrors).length > 0`: some key of the
errors object was assigned. -/
def hasValidationErrors (e : ValidationErrors) : Bool :=
  e.githubPrUrl.isSome || e.jiraTicketId.isSome || e.general.isSome

/-- `InputForm.handleSubmit` (App.tsx part), reduced to the guard
deciding whether `onSubmit` — and hence the network path through
`generateSummary`/`request` — is reached: submission is suppressed while
already submitting, loading, or disabled, and blocked when whole-form
validation reports any error.  `true` means `onSubmit(cleanData)` runs;
`false` means the handler returns with zero network attempts made. -/
def handleSubmit (isSubmitting loading disabled : Bool) (data : FormData) : Bool :=
  if isSubmitting || loading || disabled then false
  else if hasValidationErrors (validateForm data) then false
  else true

/-! ## Theorems -/

/-- Auxiliary bound: once at most `k` more retries are allowed
(`cfg.retries ≤ rc + k`), at most `k + 1` attempts are performed. -/
theorem request_attempts_bound (cfg : APIClientConfig) (env : Nat → AttemptResult) :
    ∀ k rc, cfg.retries ≤ rc + k → (request cfg env rc).2.1 ≤ k + 1 := by
  intro k
  induction k with
  | zero =>
    intro rc hle
    rw [request.eq_def]
    split
    · simp
    · simp
    · simp
    · simp
    · split
      · next h => exact absurd h.1 (by omega)
      · simp
    · split
      · next h => exact absurd h.1 (by omega)
      · simp
  | succ n ih =>
    intro rc hle
    rw [request.eq_def]
    split
    · simp
    · simp
    · simp
    · simp
    · split
      · have hr := ih (rc + 1) (by omega)
        simp only
        omega
      · simp
    · split
      · have hr := ih (rc + 1) (by omega)
        simp only
        omega
      · simp

/-- C1: for every invocation of `APIClient.request` starting at retry
counter 0, the total number of network attempts performed is at most
`retries + 1`, whatever classified errors the attempts produce; the
recursion terminates because retrying requires `retryCount < retries`
and re-invokes with `retryCount + 1`. -/
theorem request_total_attempts_le (cfg : APIClientConfig) (env : Nat → AttemptResult) :
    (request cfg env 0).2.1 ≤ cfg.retries + 1 :=
  request_attempts_bound cfg env cfg.retries 0 (by omega)

/-- C2: with the default configuration (`retries = 3`), a transport
failure on the first attempt (the fetch `TypeError` the source converts
to a `NetworkError`) is rethrown immediately after exactly one attempt
with no backoff — the `throw networkError` at part_001 line 258 runs
before the retry test ever sees the error — whereas a `TimeoutError` on
every attempt is retried to exactly `maxRetries + 1 = 4` attempts with
strictly increasing exponential delays. -/
theorem networkError_never_retried :
    request DEFAULT_CONFIG (fun _ => .fetchTypeError) 0
      = (.err (.network "Network error - please check your connection"), 1, []) ∧
    request DEFAULT_CONFIG (fun _ => .timeoutRaced) 0
      = (.err (.timeout "Request timed out"), 4, [1000, 2000, 4000]) := by
  constructor
  · simp [request]
  · simp [request, isRetryableError, computeDelay, APIClientError.statusCode,
      DEFAULT_CONFIG]

/-- C5: an attempt that fails because its cancellation signal was
triggered (`AbortError`) makes `request` rethrow the terminal CANCELLED
`APIClientError` at once — one attempt, no delay, no recursion — even
though `isRetryableError` would have classified that error (status code
0) as retryable had it been consulted. -/
theorem aborted_attempt_terminal (cfg : APIClientConfig) (env : Nat → AttemptResult)
    (rc : Nat) (h : env rc = .abortError) :
    request cfg env rc
      = (.err (.base "Request was cancelled" 0 (some "CANCELLED") none), 1, []) ∧
    isRetryableError (.base "Request was cancelled" 0 (some "CANCELLED") none) = true := by
  refine ⟨?_, rfl⟩
  rw [request.eq_def, h]

/-- Witness for C5: with the default configuration (retry budget 3 still
unspent at counter 1), an aborted attempt terminates the call with the
CANCELLED error after exactly one attempt. -/
theorem aborted_attempt_terminal_spot :
    request DEFAULT_CONFIG (fun _ => AttemptResult.abortError) 1
      = (.err (.base "Request was cancelled" 0 (some "CANCELLED") none), 1, []) ∧
    (1 : Nat) < DEFAULT_CONFIG.retries :=
  ⟨(aborted_attempt_terminal DEFAULT_CONFIG (fun _ => AttemptResult.abortError) 1 rfl).1,
    by decide⟩


/-- Branch equation of `request` for an attempt that resolves as the
raced timeout. -/
theorem request_timeoutRaced_eq (cfg : APIClientConfig) (env : Nat → AttemptResult)
    (rc : Nat) (h : env rc = .timeoutRaced) :
    request cfg env rc =
      if rc < cfg.retries ∧ isRetryableError (.timeout "Request timed out") = true then
        ((request cfg env (rc + 1)).1, (request cfg env (rc + 1)).2.1 + 1,
          computeDelay cfg rc :: (request cfg env (rc + 1)).2.2)
      else (.err (.timeout "Request timed out"), 1, []) := by
  rw [request.eq_def, h]
  rfl

/-- Branch equation of `request` for an attempt that resolves as a
non-2xx response. -/
theorem request_httpError_eq (cfg : APIClientConfig) (env : Nat → AttemptResult)
    (rc : Nat) (s : Nat) (st now : String) (b : Option APIErrorBody)
    (h : env rc = .httpError s st now b) :
    request cfg env rc =
      if rc < cfg.retries ∧
          isRetryableError (createAPIError s (parseErrorResponse s st now b)) = true then
        ((request cfg env (rc + 1)).1, (request cfg env (rc + 1)).2.1 + 1,
          computeDelay cfg rc :: (request cfg env (rc + 1)).2.2)
      else (.err (createAPIError s (parseErrorResponse s st now b)), 1, []) := by
  rw [request.eq_def, h]
  rfl

/-- C3: an HTTP-status-classified error produced from a received
response (a `base` error carrying a genuine HTTP status, `100 ≤ s`) is
eligible for retry iff `s ≥ 500` or `s = 429`; and a 404 response on the
first attempt makes `request` fail terminally after exactly 1 attempt
with no backoff delay. -/
theorem httpError_retry_iff_5xx_or_429 (cfg : APIClientConfig)
    (env : Nat → AttemptResult) (st now : String) (b : Option APIErrorBody)
    (h404 : env 0 = .httpError 404 st now b) :
    (∀ (m : String) (s : Nat) (ec cid : Option String), 100 ≤ s →
        (isRetryableError (.base m s ec cid) = true ↔ 500 ≤ s ∨ s = 429)) ∧
    request cfg env 0
      = (.err (createAPIError 404 (parseErrorResponse 404 st now b)), 1, []) := by
  constructor
  · intro m s ec cid hs
    have hs0 : ¬ s = 0 := by omega
    simp [isRetryableError, APIClientError.statusCode, hs0]
  · have hsc : (createAPIError 404 (parseErrorResponse 404 st now b)).statusCode
        = 404 := by
      unfold createAPIError
      rw [dif_neg (by simp)]
      rfl
    have hret : isRetryableError (createAPIError 404 (parseErrorResponse 404 st now b))
        = false := by
      simp [isRetryableError, hsc]
    rw [request_httpError_eq cfg env 0 404 st now b h404,
      if_neg (fun hc => by rw [hret] at hc; exact absurd hc.2 (by simp))]

/-- Witness for C3: a concrete 404 with an undecodable body fails after
one attempt with the synthesized fallback error body, 503 is retryable,
404 is not. -/
theorem httpError_retry_iff_5xx_or_429_spot :
    request DEFAULT_CONFIG (fun _ => AttemptResult.httpError 404 "Not Found" "t0" none) 0
      = (.err (.base "HTTP 404 - Not Found" 404 (some "HTTP Error") none), 1, []) ∧
    isRetryableError (.base "Service Unavailable" 503 none none) = true ∧
    isRetryableError (.base "Not Found" 404 none none) = false := by
  have h := httpError_retry_iff_5xx_or_429 DEFAULT_CONFIG
    (fun _ => AttemptResult.httpError 404 "Not Found" "t0" none) "Not Found" "t0" none rfl
  refine ⟨?_, ?_, ?_⟩
  · rw [h.2]
    decide
  · exact (h.1 "Service Unavailable" 503 none none (by omega)).mpr (Or.inl (by omega))
  · cases hb : isRetryableError (.base "Not Found" 404 none none) with
    | true => exact absurd ((h.1 "Not Found" 404 none none (by omega)).mp hb) (by omega)
    | false => rfl

/-- The `APIClientError` the `catch` block of `request` sees for an
attempt resolution that reaches the retry test (part_001, lines
262-264): the raced `TimeoutError`, or the HTTP error classified by
`createAPIError` from the parsed body; every other resolution is thrown
before the test. -/
def attemptError : AttemptResult → Option APIClientError
  | .timeoutRaced => some (.timeout "Request timed out")
  | .httpError s st now b => some (createAPIError s (parseErrorResponse s st now b))
  | _ => none

/-- C4: whenever the attempt at counter `rc` fails with a retryable
classified error and budget remains (`rc < retries`), `request` sleeps
exactly `retryDelay * 2 ^ rc` when exponential backoff is enabled and
the constant `retryDelay` otherwise, prepends that delay, counts this
attempt, and recurses with counter `rc + 1`. -/
theorem retried_attempt_backoff (cfg : APIClientConfig) (env : Nat → AttemptResult)
    (rc : Nat) (e : APIClientError)
    (he : attemptError (env rc) = some e)
    (hret : isRetryableError e = true)
    (hlt : rc < cfg.retries) :
    request cfg env rc
      = ((request cfg env (rc + 1)).1, (request cfg env (rc + 1)).2.1 + 1,
          computeDelay cfg rc :: (request cfg env (rc + 1)).2.2) ∧
    computeDelay cfg rc
      = if cfg.retryBackoff then cfg.retryDelay * 2 ^ rc else cfg.retryDelay := by
  refine ⟨?_, rfl⟩
  cases henv : env rc with
  | timeoutRaced =>
      rw [henv] at he
      simp only [attemptError, Option.some.injEq] at he
      subst he
      rw [request_timeoutRaced_eq cfg env rc henv, if_pos ⟨hlt, hret⟩]
  | httpError s st now b =>
      rw [henv] at he
      simp only [attemptError, Option.some.injEq] at he
      subst he
      rw [request_httpError_eq cfg env rc s st now b henv, if_pos ⟨hlt, hret⟩]
  | success => rw [henv] at he; simp [attemptError] at he
  | abortError => rw [henv] at he; simp [attemptError] at he
  | fetchTypeError => rw [henv] at he; simp [attemptError] at he
  | badSuccessJson => rw [henv] at he; simp [attemptError] at he

/-- Witness for C4: a retried timeout at counter 1 under the default
configuration (exponential backoff, base 1000ms) sleeps 1000 * 2 ^ 1 =
2000ms and recurses with counter 2. -/
theorem retried_attempt_backoff_spot :
    request DEFAULT_CONFIG (fun _ => AttemptResult.timeoutRaced) 1
      = ((request DEFAULT_CONFIG (fun _ => AttemptResult.timeoutRaced) 2).1,
          (request DEFAULT_CONFIG (fun _ => AttemptResult.timeoutRaced) 2).2.1 + 1,
          2000 :: (request DEFAULT_CONFIG (fun _ => AttemptResult.timeoutRaced) 2).2.2) := by
  have h := retried_attempt_backoff DEFAULT_CONFIG (fun _ => AttemptResult.timeoutRaced) 1
    (.timeout "Request timed out") rfl rfl (by decide)
  rw [h.1]
  have hd : computeDelay DEFAULT_CONFIG 1 = 2000 := by decide
  rw [hd]

/-- C6 counterexample: starting a new top-level call installs a fresh
controller into the single slot, and `cancelRequests` invoked AFTER that
call has started aborts precisely that controller — the new call's
attempt then resolves as `AbortError` and its result changes from the
success it would otherwise produce to the terminal CANCELLED error.  So
cancelling after a new call has started does affect the new call's
result. -/
theorem cancel_after_new_call_aborts_it :
    attemptAborted (cancelRequests (beginRequest initialClientState).1)
      (beginRequest initialClientState).2 = true ∧
    attemptAborted (beginRequest initialClientState).1
      (beginRequest initialClientState).2 = false ∧
    request DEFAULT_CONFIG (fun _ => AttemptResult.abortError) 0
      ≠ request DEFAULT_CONFIG (fun _ => AttemptResult.success) 0 := by
  refine ⟨by decide, by decide, ?_⟩
  have ha : request DEFAULT_CONFIG (fun _ => AttemptResult.abortError) 0
      = (.err (.base "Request was cancelled" 0 (some "CANCELLED") none), 1, []) := by
    rw [request.eq_def]
  have hs : request DEFAULT_CONFIG (fun _ => AttemptResult.success) 0
      = (.ok, 1, []) := by
    rw [request.eq_def]
  rw [ha, hs]
  decide

/-- C6 (amended): a `cancelRequests` issued BEFORE a new top-level call
starts does not affect the new call — the call installs a fresh
controller whose signal is unaborted — and `cancelRequests` with no
tracked controller (in particular before any call has started) is a
no-op that leaves the client state unchanged.  The two hypotheses are
the freshness invariants every reachable client state satisfies: every
aborted id and the tracked id predate `nextId`. -/
theorem cancel_before_new_call_is_isolated (s : ClientState)
    (h1 : ∀ i ∈ s.aborted, i < s.nextId)
    (h2 : ∀ t, s.abortController = some t → t < s.nextId) :
    attemptAborted (beginRequest (cancelRequests s)).1
      (beginRequest (cancelRequests s)).2 = false ∧
    (∀ s2 : ClientState, s2.abortController = none → cancelRequests s2 = s2) := by
  constructor
  · have hall : ∀ i ∈ (cancelRequests s).aborted, i < (cancelRequests s).nextId := by
      unfold cancelRequests
      cases hac : s.abortController with
      | none => simpa using h1
      | some t =>
          intro i hi
          simp only [List.mem_cons] at hi
          rcases hi with rfl | hi
          · exact h2 i hac
          · exact h1 i hi
    unfold attemptAborted beginRequest
    simp only [decide_eq_false_iff_not]
    intro hm
    exact absurd (hall _ hm) (lt_irrefl _)
  · intro s2 hnone
    unfold cancelRequests
    rw [hnone]

/-- Witness for the amended C6: with one call in flight (client state
`⟨some 0, [], 1⟩`), cancelling and then starting a new call leaves the
new call's controller unaborted; and cancelling the freshly constructed
client is a no-op. -/
theorem cancel_before_new_call_is_isolated_spot :
    attemptAborted (beginRequest (cancelRequests ⟨some 0, [], 1⟩)).1
      (beginRequest (cancelRequests ⟨some 0, [], 1⟩)).2 = false ∧
    cancelRequests initialClientState = initialClientState := by
  have h := cancel_before_new_call_is_isolated ⟨some 0, [], 1⟩
    (by intro i hi; simp at hi)
    (by intro t ht; have h0 : (0 : Nat) = t := Option.some.inj ht; show t < 1; omega)
  exact ⟨h.1, h.2 initialClientState rfl⟩

/-- C7: a decodable error body is returned as decoded; an undecodable
one is replaced by the minimal synthesized body
`{error, message, timestamp}` built from the status line; the classified
failure is a `ValidationAPIError` exactly when the status is 400 and the
(possibly synthesized) body carries an `errors` field-error list, and
otherwise it is the plain HTTP error carrying the response status — in
every case the resulting error's `statusCode` is the response status. -/
theorem error_body_classification (status : Nat) (st now : String) :
    (∀ b : APIErrorBody, parseErrorResponse status st now (some b) = b) ∧
    parseErrorResponse status st now none
      = { error := "HTTP Error", message := "HTTP " ++ toString status ++ " - " ++ st,
          timestamp := now } ∧
    (∀ b : APIErrorBody,
        (∃ m errs cid, createAPIError status b = .validation m errs cid) ↔
          status = 400 ∧ b.errors.isSome = true) ∧
    (∀ b : APIErrorBody, ¬(status = 400 ∧ b.errors.isSome = true) →
        createAPIError status b
          = .base b.message status (some b.error) b.correlation_id) ∧
    (∀ b : APIErrorBody, (createAPIError status b).statusCode = status) := by
  refine ⟨fun b => rfl, rfl, ?_, ?_, ?_⟩
  · intro b
    constructor
    · rintro ⟨m, errs, cid, hc⟩
      unfold createAPIError at hc
      split at hc
      · next hcond => exact hcond
      · exact absurd hc (by simp)
    · intro hcond
      refine ⟨b.message, b.errors.get hcond.2, b.correlation_id, ?_⟩
      unfold createAPIError
      rw [dif_pos hcond]
  · intro b hcond
    unfold createAPIError
    rw [dif_neg hcond]
  · intro b
    unfold createAPIError
    split
    · next hcond => simp [APIClientError.statusCode, hcond.1]
    · simp [APIClientError.statusCode]

/-- Witness for C7: a 404 whose body decodes but has no `errors` list is
classified as the plain HTTP error carrying status 404. -/
theorem error_body_classification_spot :
    createAPIError 404 { error := "Not Found", message := "missing", timestamp := "t" }
      = .base "missing" 404 (some "Not Found") none ∧
    (createAPIError 404
        { error := "Not Found", message := "missing", timestamp := "t" }).statusCode
      = 404 := by
  have h := error_body_classification 404 "Not Found" "t"
  exact ⟨h.2.2.2.1 _ (by simp), h.2.2.2.2 _⟩

/-- C8: the secondary reference `"invalid ticket!"` does not match the
Jira ticket pattern (1-10 letters, a hyphen, digits), so field
validation reports an error and `handleSubmit` blocks the submission —
`onSubmit`, and with it any network attempt, is never reached —
whatever the GitHub URL field holds and whatever the
submitting/loading/disabled flags are. -/
theorem invalid_ticket_blocks_submission (g : String) (s l d : Bool) :
    validateField .jiraTicketId "invalid ticket!"
      = some "Please enter a valid Jira ticket ID (e.g., PROJ-123)" ∧
    handleSubmit s l d { githubPrUrl := g, jiraTicketId := some "invalid ticket!" }
      = false := by
  constructor
  · decide
  · have hj : validateField FormField.jiraTicketId "invalid ticket!"
        = some "Please enter a valid Jira ticket ID (e.g., PROJ-123)" := by decide
    cases s <;> cases l <;> cases d <;>
      simp [handleSubmit, hasValidationErrors, validateForm, hj]

/-- C9: `updateConfig` merges the partial override into the stored
configuration field by field — every field present in the override takes
the overridden value, and every absent field keeps its previous value. -/
theorem updateConfig_merge_frame (c : APIClientConfig) (p : ConfigOverrides) :
    ((∀ v, p.baseURL = some v → (updateConfig c p).baseURL = v) ∧
      (p.baseURL = none → (updateConfig c p).baseURL = c.baseURL)) ∧
    ((∀ v, p.timeout = some v → (updateConfig c p).timeout = v) ∧
      (p.timeout = none → (updateConfig c p).timeout = c.timeout)) ∧
    ((∀ v, p.retries = some v → (updateConfig c p).retries = v) ∧
      (p.retries = none → (updateConfig c p).retries = c.retries)) ∧
    ((∀ v, p.retryDelay = some v → (updateConfig c p).retryDelay = v) ∧
      (p.retryDelay = none → (updateConfig c p).retryDelay = c.retryDelay)) ∧
    ((∀ v, p.retryBackoff = some v → (updateConfig c p).retryBackoff = v) ∧
      (p.retryBackoff = none → (updateConfig c p).retryBackoff = c.retryBackoff)) ∧
    ((∀ v, p.enableLogging = some v → (updateConfig c p).enableLogging = v) ∧
      (p.enableLogging = none → (updateConfig c p).enableLogging = c.enableLogging)) := by
  refine ⟨⟨?_, ?_⟩, ⟨?_, ?_⟩, ⟨?_, ?_⟩, ⟨?_, ?_⟩, ⟨?_, ?_⟩, ⟨?_, ?_⟩⟩ <;>
    first
      | (intro v hv; simp [updateConfig, hv])
      | (intro hv; simp [updateConfig, hv])

/-- Witness for C9: overriding only `timeout` on the default
configuration sets `timeout` to the new value and keeps `retries`. -/
theorem updateConfig_merge_frame_spot :
    (updateConfig DEFAULT_CONFIG { timeout := some 5000 }).timeout = 5000 ∧
    (updateConfig DEFAULT_CONFIG { timeout := some 5000 }).retries
      = DEFAULT_CONFIG.retries := by
  have h := updateConfig_merge_frame DEFAULT_CONFIG { timeout := some 5000 }
  exact ⟨h.2.1.1 5000 rfl, h.2.2.1.2 rfl⟩

/-- C10: `generateSummary` posts to `/api/v1/summary/generate` a wire
body whose `github_pr_url` is the trimmed source URL, and whose
`jira_ticket_id` is omitted (undefined, dropped by `JSON.stringify`)
exactly when the secondary reference is absent or trims to the empty
string — a whitespace-only ticket id is never transmitted. -/
theorem generateSummary_wire_body (r : SummaryRequest) :
    (generateSummary r).1 = "/api/v1/summary/generate" ∧
    (generateSummary r).2.github_pr_url = jsTrim r.githubPrUrl ∧
    ((generateSummary r).2.jira_ticket_id = none ↔
      r.jiraTicketId = none ∨ r.jiraTicketId.map jsTrim = some "") := by
  refine ⟨rfl, rfl, ?_⟩
  cases hj : r.jiraTicketId with
  | none => simp [generateSummary, cleanRequest, hj]
  | some t =>
      simp only [generateSummary, cleanRequest, hj, Option.map_some]
      by_cases ht : jsTrim t = "" <;> simp [ht]
